import Mathlib

/-!
Verification of the ha-switchos integration (custom_components/ha_switchos).

The repository ships three Python files: `__init__.py`, `const.py` and
`sensor.py`.  The coordinator (`coordinator.py`) and the port record
(`port.py`) are imported by the shipped files but are not part of the
source tree; where a claim depends on them, the missing parts are modelled
from the specification and marked as such in their doc comments.

The embedding models Python attribute access (`getattr` with and without a
default), sequence subscripting, the sensor descriptor tables, the entity
existence predicates, the `native_value` projections, and the setup flow of
`__init__.py`.
-/

/-- A Python runtime value as used by the sensor layer: `None`, numbers,
strings, sequences (list or tuple) and attribute-bearing objects. -/
inductive PyVal where
  | none
  | num (n : Int)
  | str (s : String)
  | arr (elems : List PyVal)
  | obj (attrs : List (String × PyVal))

/-- Whether a Python value is `None` (the test `x is None`). -/
def PyVal.isNone : PyVal → Bool
  | .none => true
  | _ => false

/-- Whether a Python value is a list or tuple (`isinstance(x, (tuple, list))`). -/
def PyVal.isSeq : PyVal → Bool
  | .arr _ => true
  | _ => false

/-- Look up an attribute by name in an object's attribute list. -/
def lookupAttr : List (String × PyVal) → String → Option PyVal
  | [], _ => Option.none
  | (k, v) :: rest, name => if k = name then Option.some v else lookupAttr rest name

/-- Python `getattr(value, name, None)`: on an object, the attribute value or
`None` when absent; on any non-object (including `None`), `None`. -/
def pyGetattrD (v : PyVal) (name : String) : PyVal :=
  match v with
  | .obj attrs => (lookupAttr attrs name).getD .none
  | _ => .none

/-- A Python exception kind relevant to the projections in `sensor.py`. -/
inductive PyErr where
  | attributeError
  | indexError
  | typeError
deriving DecidableEq

/-- Python `getattr(value, name)` without a default: the attribute value, or
`AttributeError` when the value is not an object carrying that attribute. -/
def pyGetattr (v : PyVal) (name : String) : Except PyErr PyVal :=
  match v with
  | .obj attrs =>
      match lookupAttr attrs name with
      | Option.some x => .ok x
      | Option.none => .error .attributeError
  | _ => .error .attributeError

/-- Python `value[i]` for a non-negative index: element `i` of a sequence,
`IndexError` when the sequence is too short, `TypeError` on a non-sequence. -/
def pySubscript (v : PyVal) (i : Nat) : Except PyErr PyVal :=
  match v with
  | .arr xs =>
      match xs.get? i with
      | Option.some x => .ok x
      | Option.none => .error .indexError
  | _ => .error .typeError

/-- Modelled from the spec: `port.py` is absent from the source tree.  A
`Port` is one per-port record with a zero-based index `num` and a display
`name`, as used by `sensor.py` (`port.num`, `port.name`). -/
structure Port where
  num : Nat
  name : String
deriving DecidableEq

/-- Modelled from the spec: `coordinator.py` is absent from the source tree.
`MikrotikSwitchOSData` is the snapshot object: a `sys` endpoint object, a
`poe` endpoint object (`None` on hardware without PoE), and the ordered
per-port records, per §3 of the spec.  Endpoint objects are generic `PyVal`
objects so that optional metric fields can be absent or `None`. -/
structure MikrotikSwitchOSData where
  sys : PyVal
  poe : PyVal
  ports : List Port

/-- `getattr(api, name, None)` on the snapshot object, for the endpoint
names the descriptor tables use (`"sys"` and `"poe"`). -/
def apiGetattrD (api : MikrotikSwitchOSData) (name : String) : PyVal :=
  if name = "sys" then api.sys
  else if name = "poe" then api.poe
  else .none

/-- `getattr(api, name)` without a default on the snapshot object: `sys` and
`poe` are attributes of the data class, other names raise. -/
def apiGetattr (api : MikrotikSwitchOSData) (name : String) : Except PyErr PyVal :=
  if name = "sys" then .ok api.sys
  else if name = "poe" then .ok api.poe
  else .error .attributeError

/-- `MikrotikSwitchOSEntityDescription` from `sensor.py`: the fields the
claims depend on (`key`, `endpoint`, `property`, `enabled_by_default`);
presentation-only fields (device class, units, translation key) are
omitted. -/
structure MikrotikSwitchOSEntityDescription where
  key : String
  endpoint : String
  property : String
  enabled_by_default : Option (MikrotikSwitchOSData → Bool) := Option.none

/-- The `GLOBAL_SENSORS` table from `sensor.py`. -/
def GLOBAL_SENSORS : List MikrotikSwitchOSEntityDescription :=
  [ { key := "cpu_temperature", endpoint := "sys", property := "cpu_temp" },
    { key := "psu1_current", endpoint := "sys", property := "psu1_current",
      enabled_by_default := Option.some (fun api => !api.poe.isNone) },
    { key := "psu1_voltage", endpoint := "sys", property := "psu1_voltage",
      enabled_by_default := Option.some (fun api => !api.poe.isNone) },
    { key := "psu1_power", endpoint := "sys", property := "psu1_power",
      enabled_by_default := Option.some (fun api => !api.poe.isNone) },
    { key := "psu2_current", endpoint := "sys", property := "psu2_current",
      enabled_by_default := Option.some (fun api => !api.poe.isNone) },
    { key := "psu2_voltage", endpoint := "sys", property := "psu2_voltage",
      enabled_by_default := Option.some (fun api => !api.poe.isNone) },
    { key := "psu2_power", endpoint := "sys", property := "psu2_power",
      enabled_by_default := Option.some (fun api => !api.poe.isNone) },
    { key := "total_power", endpoint := "sys", property := "power_consumption",
      enabled_by_default := Option.some (fun api => !api.poe.isNone) } ]

/-- The `PORT_SENSORS` table from `sensor.py`. -/
def PORT_SENSORS : List MikrotikSwitchOSEntityDescription :=
  [ { key := "poe_power", endpoint := "poe", property := "power" },
    { key := "poe_current", endpoint := "poe", property := "current" },
    { key := "poe_voltage", endpoint := "poe", property := "voltage" } ]

/-- `_global_entity_exists` from `sensor.py`:
`getattr(getattr(api, endpoint, None), property, None) is not None`. -/
def _global_entity_exists (entity_desc : MikrotikSwitchOSEntityDescription)
    (api : MikrotikSwitchOSData) : Bool :=
  !(pyGetattrD (apiGetattrD api entity_desc.endpoint) entity_desc.property).isNone

/-- `_port_entity_exists` from `sensor.py`: the selected value is a list or
tuple and its length is strictly greater than `port.num`. -/
def _port_entity_exists (entity_desc : MikrotikSwitchOSEntityDescription)
    (api : MikrotikSwitchOSData) (port : Port) : Bool :=
  match pyGetattrD (apiGetattrD api entity_desc.endpoint) entity_desc.property with
  | .arr xs => decide (xs.length > port.num)
  | _ => false

/-- Decimal rendering of a natural number, modelling Python string
formatting of `port.num` inside an f-string (`str(int)`). -/
def natRepr (n : Nat) : List Char :=
  if n = 0 then ['0'] else ((Nat.digits 10 n).map Nat.digitChar).reverse

/-- The unique id of a global sensor, from `MikrotikSwitchOSSensor.__init__`:
the f-string `serial_num` `_` `key`. -/
def globalUniqueId (serial : String)
    (entity_desc : MikrotikSwitchOSEntityDescription) : List Char :=
  serial.data ++ '_' :: entity_desc.key.data

/-- The unique id of a port sensor, from
`MikrotikSwitchOSPortSensor.__init__`: the f-string
`serial_num` `_` `port.num` `_` `key`. -/
def portUniqueId (serial : String)
    (entity_desc : MikrotikSwitchOSEntityDescription) (port : Port) : List Char :=
  serial.data ++ '_' :: (natRepr port.num ++ '_' :: entity_desc.key.data)

/-- `MikrotikSwitchOSSensor.native_value`:
`getattr(getattr(api, endpoint), property)`, without defaults. -/
def nativeValue (entity_desc : MikrotikSwitchOSEntityDescription)
    (api : MikrotikSwitchOSData) : Except PyErr PyVal := do
  let endpointObj ← apiGetattr api entity_desc.endpoint
  pyGetattr endpointObj entity_desc.property

/-- `MikrotikSwitchOSPortSensor.native_value`:
`getattr(getattr(api, endpoint), property)[port.num]`. -/
def portNativeValue (entity_desc : MikrotikSwitchOSEntityDescription)
    (api : MikrotikSwitchOSData) (port : Port) : Except PyErr PyVal := do
  let value ← nativeValue entity_desc api
  pySubscript value port.num

/-- `MikrotikSwitchOSSensor.entity_registry_enabled_default`:
`enabled_by_default is None or enabled_by_default(api)`. -/
def entity_registry_enabled_default
    (entity_desc : MikrotikSwitchOSEntityDescription)
    (api : MikrotikSwitchOSData) : Bool :=
  match entity_desc.enabled_by_default with
  | Option.none => true
  | Option.some p => p api

/-- A created sensor entity.  `descIndex`/`portNum` identify the descriptor
and (for port sensors) the bound port; `uniqueId` is the registry id; and
`defaultEnabled` records the registration-time default-enabled status.
Modelled from the spec: the host entity registry evaluates
`entity_registry_enabled_default` once, at registration, against the
coordinator's first snapshot (§4.2, §9). -/
structure SensorEntity where
  desc : MikrotikSwitchOSEntityDescription
  boundPort : Option Port
  uniqueId : List Char
  defaultEnabled : Bool

/-- The global-sensor entities created by `async_setup_entry` in `sensor.py`:
one per `GLOBAL_SENSORS` descriptor passing `_global_entity_exists` on the
coordinator's snapshot. -/
def setupGlobalEntities (serial : String) (api : MikrotikSwitchOSData) :
    List SensorEntity :=
  (GLOBAL_SENSORS.filter (fun d => _global_entity_exists d api)).map
    (fun d =>
      { desc := d, boundPort := Option.none,
        uniqueId := globalUniqueId serial d,
        defaultEnabled := entity_registry_enabled_default d api })

/-- The port-sensor entities created by `async_setup_entry` in `sensor.py`:
the comprehension over `PORT_SENSORS` and `coordinator.api.ports` filtered
by `_port_entity_exists`. -/
def setupPortEntities (serial : String) (api : MikrotikSwitchOSData) :
    List SensorEntity :=
  PORT_SENSORS.flatMap (fun d =>
    (api.ports.filter (fun p => _port_entity_exists d api p)).map
      (fun p =>
        { desc := d, boundPort := Option.some p,
          uniqueId := portUniqueId serial d p,
          defaultEnabled := entity_registry_enabled_default d api }))

/-- All entities created by one run of the sensor platform setup. -/
def setupEntities (serial : String) (api : MikrotikSwitchOSData) :
    List SensorEntity :=
  setupGlobalEntities serial api ++ setupPortEntities serial api

/-- `DEFAULT_UPDATE_INTERVAL` from `const.py`. -/
def DEFAULT_UPDATE_INTERVAL : Nat := 10

/-- The error taxonomy of the spec (§7) for fetches against the remote
data source. -/
inductive FetchError where
  | connectError
  | authError
  | parseError
deriving DecidableEq

/-- Modelled from the spec: `coordinator.py` is absent from the source tree.
The coordinator's refresh state: whether a fetch is in flight, how many
fetches have been issued to the remote data source, and how many callers
are awaiting the in-flight fetch (§4.1, §5: single-flight). -/
structure CoordinatorRefreshState where
  inFlight : Bool
  fetchesIssued : Nat
  waiters : Nat

/-- Modelled from the spec: a refresh trigger (`refresh_now`, from the timer
or a manual request).  If a refresh is already in progress the trigger joins
the in-flight fetch; otherwise it issues a new fetch to the remote data
source (§4.1). -/
def refresh_now (c : CoordinatorRefreshState) : CoordinatorRefreshState :=
  if c.inFlight then
    { c with waiters := c.waiters + 1 }
  else
    { c with inFlight := true, fetchesIssued := c.fetchesIssued + 1,
             waiters := c.waiters + 1 }

/-- Modelled from the spec: completion of the in-flight fetch delivers its
result to every waiting trigger and clears the in-flight flag (§5: late
joiners receive the result of the fetch already in flight). -/
def completeFetch (c : CoordinatorRefreshState) (r : Except FetchError MikrotikSwitchOSData) :
    CoordinatorRefreshState × List (Except FetchError MikrotikSwitchOSData) :=
  ({ c with inFlight := false, waiters := 0 }, List.replicate c.waiters r)

/-- The idle coordinator refresh state. -/
def idleCoordinator : CoordinatorRefreshState :=
  { inFlight := false, fetchesIssued := 0, waiters := 0 }

/-- One observable step of `async_setup_entry` in `__init__.py`. -/
inductive SetupEvent where
  | firstRefresh
  | platformsForwarded
deriving DecidableEq

/-- The host-visible state touched by `async_setup_entry` in `__init__.py`:
the entry's `runtime_data` and the entities created by the forwarded sensor
platform. -/
structure EntryState where
  runtime_data : Option MikrotikSwitchOSData
  sensorEntities : List SensorEntity

/-- `async_setup_entry` from `__init__.py`, with the first refresh modelled
from the spec (`coordinator.py` is absent): the coordinator's
`async_config_entry_first_refresh` performs one fetch and propagates its
error to the caller, aborting setup (§4.1, §6, §7).  On success
`runtime_data` is assigned and the sensor platform is forwarded, which runs
`sensor.async_setup_entry` on the coordinator's snapshot.  The returned
trace lists the observable steps in order. -/
def async_setup_entry (serial : String)
    (firstFetch : Except FetchError MikrotikSwitchOSData) (st : EntryState) :
    Except FetchError Bool × EntryState × List SetupEvent :=
  match firstFetch with
  | .error e => (.error e, st, [SetupEvent.firstRefresh])
  | .ok api =>
      (.ok true,
       { runtime_data := Option.some api,
         sensorEntities := setupEntities serial api },
       [SetupEvent.firstRefresh, SetupEvent.platformsForwarded])

/-- Modelled from the spec: a subsequent coordinator refresh (§4.1).  On
success the snapshot in `runtime_data` is replaced; on failure it is kept.
Entities created at setup are not re-created or re-evaluated. -/
def applyRefresh (st : EntryState) (r : Except FetchError MikrotikSwitchOSData) :
    EntryState :=
  match r with
  | .ok api2 => { st with runtime_data := Option.some api2 }
  | .error _ => st

/-- Selector evaluation as a state transformer over the snapshot: the
source performs only attribute reads, so the snapshot component is
returned unchanged. -/
def nativeValueRun (api : MikrotikSwitchOSData)
    (d : MikrotikSwitchOSEntityDescription) :
    Except PyErr PyVal × MikrotikSwitchOSData :=
  (nativeValue d api, api)

/-- Port-sensor selector evaluation as a state transformer. -/
def portNativeValueRun (api : MikrotikSwitchOSData)
    (d : MikrotikSwitchOSEntityDescription) (p : Port) :
    Except PyErr PyVal × MikrotikSwitchOSData :=
  (portNativeValue d api p, api)

/-- The global existence predicate as a state transformer. -/
def globalExistsRun (api : MikrotikSwitchOSData)
    (d : MikrotikSwitchOSEntityDescription) : Bool × MikrotikSwitchOSData :=
  (_global_entity_exists d api, api)

/-- The port existence predicate as a state transformer. -/
def portExistsRun (api : MikrotikSwitchOSData)
    (d : MikrotikSwitchOSEntityDescription) (p : Port) :
    Bool × MikrotikSwitchOSData :=
  (_port_entity_exists d api p, api)

/-- Whether a character list starts with a decimal digit. -/
def headIsDigit : List Char → Bool
  | [] => false
  | c :: _ => c.isDigit

/-- A concrete snapshot: a `sys` endpoint with a temperature and an absent
PSU metric, a `poe` endpoint with a four-entry power array, two ports. -/
def exampleApi : MikrotikSwitchOSData :=
  { sys := .obj [("cpu_temp", .num 42), ("psu1_current", .none)],
    poe := .obj [("power", .arr [.num 1, .num 2, .num 3, .num 4])],
    ports := [{ num := 0, name := "Port1" }, { num := 3, name := "Port4" }] }

/-- A concrete snapshot whose `poe.power` array has length 8. -/
def exampleApi8 : MikrotikSwitchOSData :=
  { sys := .obj [("cpu_temp", .num 40)],
    poe := .obj [("power",
      .arr [.num 0, .num 1, .num 2, .num 3, .num 4, .num 5, .num 6, .num 7])],
    ports := [{ num := 9, name := "Port10" }] }

/-- A concrete snapshot whose first fetch lacks PoE support. -/
def apiNoPoe : MikrotikSwitchOSData :=
  { sys := .obj [("cpu_temp", .num 35)], poe := .none, ports := [] }

/-- If the defaulted attribute chain yields a non-`None` value, the raising
`getattr` on the endpoint object succeeds with the same value. -/
theorem pyGetattr_of_not_none (v : PyVal) (name : String)
    (h : (pyGetattrD v name).isNone = false) :
    pyGetattr v name = .ok (pyGetattrD v name) := by
  cases v <;> simp [pyGetattrD, PyVal.isNone] at h ⊢
  case obj attrs =>
    cases hl : lookupAttr attrs name <;> simp [pyGetattr, hl]
    rw [hl] at h
    simp [PyVal.isNone] at h

/-- If the defaulted attribute chain yields a non-`None` value, the raising
`getattr` on the snapshot object succeeds with the same endpoint object. -/
theorem apiGetattr_of_not_none (api : MikrotikSwitchOSData) (name prop : String)
    (h : (pyGetattrD (apiGetattrD api name) prop).isNone = false) :
    apiGetattr api name = .ok (apiGetattrD api name) := by
  unfold apiGetattrD at h
  unfold apiGetattr apiGetattrD
  by_cases h1 : name = "sys" <;> by_cases h2 : name = "poe" <;>
    simp [h1, h2] at h ⊢
  simp [pyGetattrD, PyVal.isNone] at h

/-- When the selector resolves to a sequence long enough for the port, the
port `native_value` read returns exactly the indexed element. -/
theorem portNativeValue_ok_of_sel (d : MikrotikSwitchOSEntityDescription)
    (api : MikrotikSwitchOSData) (p : Port) (xs : List PyVal)
    (hsel : pyGetattrD (apiGetattrD api d.endpoint) d.property = .arr xs)
    (hlen : p.num < xs.length) :
    portNativeValue d api p = .ok (xs.get ⟨p.num, hlen⟩) := by
  have hnn : (pyGetattrD (apiGetattrD api d.endpoint) d.property).isNone = false := by
    rw [hsel]; rfl
  have h1 := apiGetattr_of_not_none api d.endpoint d.property hnn
  have h2 := pyGetattr_of_not_none (apiGetattrD api d.endpoint) d.property hnn
  unfold portNativeValue nativeValue
  rw [h1]
  simp only [bind, Except.bind]
  rw [h2, hsel]
  simp [pySubscript, List.getElem?_eq_getElem hlen]

/-- The registration-time port check, unfolded: it holds exactly when the
selected value is a sequence longer than the port index. -/
theorem port_entity_exists_iff (d : MikrotikSwitchOSEntityDescription)
    (api : MikrotikSwitchOSData) (p : Port) :
    _port_entity_exists d api p = true ↔
      ∃ xs, pyGetattrD (apiGetattrD api d.endpoint) d.property = .arr xs ∧
        p.num < xs.length := by
  unfold _port_entity_exists
  cases h : pyGetattrD (apiGetattrD api d.endpoint) d.property <;> simp [h]

/-- Every global entity created at setup carries the default-enabled status
computed from the snapshot passed to setup. -/
theorem setupGlobal_defaultEnabled (serial : String) (first : MikrotikSwitchOSData) :
    ∀ e ∈ setupGlobalEntities serial first,
      e.defaultEnabled = entity_registry_enabled_default e.desc first := by
  simp only [setupGlobalEntities, List.mem_map, List.mem_filter]
  rintro e ⟨a, ⟨ha, hchk⟩, rfl⟩
  rfl

/-- Strings with equal character data are equal. -/
theorem string_data_inj (s t : String) (h : s.data = t.data) : s = t := by
  cases s; cases t; exact congrArg String.mk h

/-- Digit characters are never the underscore separator. -/
theorem digitChar_ne_underscore (a : Nat) (h : a < 10) : Nat.digitChar a ≠ '_' := by
  interval_cases a <;> decide

/-- Digit characters of digits below ten satisfy `Char.isDigit`. -/
theorem digitChar_isDigit (a : Nat) (h : a < 10) : (Nat.digitChar a).isDigit = true := by
  interval_cases a <;> decide

/-- `Nat.digitChar` is injective below ten. -/
theorem digitChar_inj (a b : Nat) (ha : a < 10) (hb : b < 10)
    (h : Nat.digitChar a = Nat.digitChar b) : a = b := by
  interval_cases a <;> interval_cases b <;> revert h <;> decide

/-- Every character of the decimal rendering is a digit. -/
theorem natRepr_all_digits (n : Nat) : ∀ c ∈ natRepr n, c.isDigit = true := by
  unfold natRepr
  by_cases h : n = 0
  · simp [h]
  · simp only [h, if_false, List.mem_reverse, List.mem_map]
    rintro c ⟨d, hd, rfl⟩
    exact digitChar_isDigit d (Nat.digits_lt_base (by norm_num) hd)

/-- The decimal rendering is never empty. -/
theorem natRepr_ne_nil (n : Nat) : natRepr n ≠ [] := by
  unfold natRepr
  by_cases h : n = 0 <;> simp [h]
  exact Nat.digits_ne_nil_iff_ne_zero.2 h

/-- The underscore separator never occurs inside the decimal rendering. -/
theorem underscore_not_mem_natRepr (n : Nat) : '_' ∉ natRepr n := by
  intro h
  have := natRepr_all_digits n '_' h
  exact absurd this (by decide)

/-- Mapping `Nat.digitChar` over lists of digits below ten is injective. -/
theorem map_digitChar_inj (l1 : List Nat) :
    ∀ l2 : List Nat, (∀ x ∈ l1, x < 10) → (∀ x ∈ l2, x < 10) →
      l1.map Nat.digitChar = l2.map Nat.digitChar → l1 = l2 := by
  induction l1 with
  | nil =>
    intro l2 _ _ h
    cases l2 with
    | nil => rfl
    | cons b t => simp at h
  | cons a t1 ih =>
    intro l2 h1 h2 h
    cases l2 with
    | nil => simp at h
    | cons b t2 =>
      simp only [List.map_cons, List.cons.injEq] at h
      have ha : a = b :=
        digitChar_inj a b (h1 a (List.mem_cons_self a t1))
          (h2 b (List.mem_cons_self b t2)) h.1
      have ht : t1 = t2 :=
        ih t2 (fun x hx => h1 x (List.mem_cons_of_mem a hx))
          (fun x hx => h2 x (List.mem_cons_of_mem b hx)) h.2
      rw [ha, ht]

/-- A nonzero number never renders to the single character list of zero. -/
theorem natRepr_zero_aux (m : Nat) (hm : m ≠ 0)
    (h : ['0'] = ((Nat.digits 10 m).map Nat.digitChar).reverse) : False := by
  have hlen : (Nat.digits 10 m).length = 1 := by
    have := congrArg List.length h
    simpa using this.symm
  obtain ⟨d, hd⟩ := List.length_eq_one.1 hlen
  have hd10 : d < 10 :=
    Nat.digits_lt_base (by norm_num) (by rw [hd]; exact List.mem_singleton.2 rfl)
  rw [hd] at h
  simp only [List.map_cons, List.map_nil, List.reverse_cons, List.reverse_nil,
    List.nil_append, List.cons.injEq, and_true] at h
  have h0 : Nat.digitChar 0 = Nat.digitChar d := by
    rw [show Nat.digitChar 0 = ('0' : Char) from rfl]; exact h
  have hd0 : d = 0 := (digitChar_inj 0 d (by norm_num) hd10 h0).symm
  have hmd : Nat.ofDigits 10 (Nat.digits 10 m) = m := Nat.ofDigits_digits 10 m
  rw [hd, hd0] at hmd
  simp [Nat.ofDigits] at hmd
  exact hm hmd.symm

/-- The decimal rendering is injective: distinct numbers render to distinct
character lists. -/
theorem natRepr_inj (n m : Nat) (h : natRepr n = natRepr m) : n = m := by
  unfold natRepr at h
  by_cases hn : n = 0 <;> by_cases hm : m = 0
  · rw [hn, hm]
  · exact absurd (by rw [if_pos hn, if_neg hm] at h; exact h)
      (fun hh => natRepr_zero_aux m hm hh)
  · exact absurd (by rw [if_neg hn, if_pos hm] at h; exact h.symm)
      (fun hh => natRepr_zero_aux n hn hh)
  · rw [if_neg hn, if_neg hm] at h
    have h2 : (Nat.digits 10 n).map Nat.digitChar =
        (Nat.digits 10 m).map Nat.digitChar := List.reverse_injective h
    have h3 : Nat.digits 10 n = Nat.digits 10 m :=
      map_digitChar_inj _ _ (fun x hx => Nat.digits_lt_base (by norm_num) hx)
        (fun x hx => Nat.digits_lt_base (by norm_num) hx) h2
    have h4 := congrArg (Nat.ofDigits 10) h3
    rw [Nat.ofDigits_digits, Nat.ofDigits_digits] at h4
    exact_mod_cast h4

/-- Splitting at the first underscore: if neither prefix contains the
underscore separator, equal concatenations force equal parts. -/
theorem append_underscore_inj (a : List Char) :
    ∀ (b u v : List Char), '_' ∉ a → '_' ∉ b →
      a ++ '_' :: u = b ++ '_' :: v → a = b ∧ u = v := by
  induction a with
  | nil =>
    intro b u v _ hb h
    cases b with
    | nil =>
      simp only [List.nil_append, List.cons.injEq] at h
      exact ⟨rfl, h.2⟩
    | cons cb b2 =>
      simp only [List.nil_append, List.cons_append, List.cons.injEq] at h
      exact absurd (h.1 ▸ List.mem_cons_self cb b2) hb
  | cons ca a2 ih =>
    intro b u v ha hb h
    cases b with
    | nil =>
      simp only [List.cons_append, List.nil_append, List.cons.injEq] at h
      exact absurd (h.1 ▸ List.mem_cons_self ca a2) ha
    | cons cb b2 =>
      simp only [List.cons_append, List.cons.injEq] at h
      have ht := ih b2 u v (fun hx => ha (List.mem_cons_of_mem ca hx))
        (fun hx => hb (List.mem_cons_of_mem cb hx)) h.2
      exact ⟨by rw [h.1, ht.1], ht.2⟩

/-- The decimal rendering starts with a digit character. -/
theorem natRepr_headIsDigit (n : Nat) : headIsDigit (natRepr n) = true := by
  cases hne : natRepr n with
  | nil => exact absurd hne (natRepr_ne_nil n)
  | cons c cs =>
    have hc : c.isDigit = true :=
      natRepr_all_digits n c (hne ▸ List.mem_cons_self c cs)
    simpa [headIsDigit] using hc

/-- No key in the global descriptor table starts with a digit. -/
theorem global_keys_not_digit :
    ∀ d ∈ GLOBAL_SENSORS, headIsDigit d.key.data = false := by
  intro d hd
  simp only [GLOBAL_SENSORS, List.mem_cons, List.not_mem_nil, or_false] at hd
  rcases hd with rfl | rfl | rfl | rfl | rfl | rfl | rfl | rfl <;> decide

/-- C8: the default refresh interval of the coordinator equals 10
(`DEFAULT_UPDATE_INTERVAL = 10` in `const.py`). -/
theorem default_update_interval_is_ten : DEFAULT_UPDATE_INTERVAL = 10 := rfl

/-- C1: setup performs the first refresh before any sensor platform is set
up; if the very first fetch fails, the error propagates to the caller,
`runtime_data` is never assigned, no platforms are forwarded and no sensor
entities are created; on success the platform forward strictly follows the
first refresh in the event trace. -/
theorem first_refresh_gates_setup (serial : String) (st : EntryState)
    (e : FetchError) (api : MikrotikSwitchOSData) :
    (async_setup_entry serial (.error e) st).1 = .error e ∧
    (async_setup_entry serial (.error e) st).2.1 = st ∧
    SetupEvent.platformsForwarded ∉ (async_setup_entry serial (.error e) st).2.2 ∧
    (async_setup_entry serial (.ok api) st).2.2 =
      [SetupEvent.firstRefresh, SetupEvent.platformsForwarded] ∧
    (async_setup_entry serial (.ok api) st).2.1.sensorEntities =
      setupEntities serial api := by
  refine ⟨rfl, rfl, ?_, rfl, rfl⟩
  simp [async_setup_entry]

/-- C2: concurrent refresh triggers collapse into one fetch.  A trigger
arriving while a fetch is in flight issues no new fetch; two racing
triggers from idle issue exactly one fetch; on completion both receive the
result of the single in-flight fetch. -/
theorem single_flight_refresh (c : CoordinatorRefreshState)
    (hc : c.inFlight = true) (r : Except FetchError MikrotikSwitchOSData) :
    (refresh_now c).fetchesIssued = c.fetchesIssued ∧
    (refresh_now (refresh_now idleCoordinator)).fetchesIssued = 1 ∧
    (completeFetch (refresh_now (refresh_now idleCoordinator)) r).2 = [r, r] := by
  refine ⟨?_, rfl, ?_⟩
  · simp [refresh_now, hc]
  · simp [refresh_now, completeFetch, idleCoordinator, List.replicate]

/-- Witness for `single_flight_refresh` at a concrete in-flight state and a
concrete successful fetch result. -/
theorem single_flight_refresh_witness :
    (refresh_now { inFlight := true, fetchesIssued := 1, waiters := 1 }).fetchesIssued = 1 ∧
    (refresh_now (refresh_now idleCoordinator)).fetchesIssued = 1 ∧
    (completeFetch (refresh_now (refresh_now idleCoordinator)) (.ok exampleApi)).2 =
      [.ok exampleApi, .ok exampleApi] :=
  single_flight_refresh { inFlight := true, fetchesIssued := 1, waiters := 1 }
    rfl (.ok exampleApi)

/-- C3: a global sensor entity is created by the sensor platform setup if
and only if the descriptor is in `GLOBAL_SENSORS` and its
(endpoint, property) selector resolves to a non-absent (non-`None`) value
on the first snapshot; a missing endpoint or property, or a `None` value,
yields no entity. -/
theorem global_entity_created_iff (serial : String) (api : MikrotikSwitchOSData)
    (d : MikrotikSwitchOSEntityDescription) :
    (∃ e ∈ setupGlobalEntities serial api, e.desc = d) ↔
      d ∈ GLOBAL_SENSORS ∧
        (pyGetattrD (apiGetattrD api d.endpoint) d.property).isNone = false := by
  simp [setupGlobalEntities, List.mem_filter, _global_entity_exists]

/-- Witness for C3 -/
theorem global_entity_created_iff_witness :
    (∃ e ∈ setupGlobalEntities "SER" exampleApi,
      e.desc = { key := "cpu_temperature", endpoint := "sys", property := "cpu_temp" }) ∧
    ¬(∃ e ∈ setupGlobalEntities "SER" exampleApi,
      e.desc = { key := "psu1_current", endpoint := "sys", property := "psu1_current",
                 enabled_by_default := Option.some (fun api => !api.poe.isNone) }) := by
  constructor
  · exact (global_entity_created_iff "SER" exampleApi
      { key := "cpu_temperature", endpoint := "sys", property := "cpu_temp" }).2
      ⟨by unfold GLOBAL_SENSORS; exact List.mem_cons_self _ _, rfl⟩
  · intro h
    have h2 := (global_entity_created_iff "SER" exampleApi
      { key := "psu1_current", endpoint := "sys", property := "psu1_current",
        enabled_by_default := Option.some (fun api => !api.poe.isNone) }).1 h
    exact absurd h2.2 (by decide)

/-- C4: a port sensor entity bound to port `p` is created by the sensor
platform setup if and only if the descriptor is in `PORT_SENSORS`, `p` is
one of the snapshot's ports, and the selector's value on the first snapshot
is a list or tuple of length strictly greater than `p.num`; in particular,
with a `poe.power` array of length 8 a port bound to index 9 is rejected by
the registration-time check. -/
theorem port_entity_created_iff (serial : String) (api : MikrotikSwitchOSData)
    (d : MikrotikSwitchOSEntityDescription) (p : Port) :
    ((∃ e ∈ setupPortEntities serial api, e.desc = d ∧ e.boundPort = Option.some p) ↔
      d ∈ PORT_SENSORS ∧ p ∈ api.ports ∧
        ∃ xs, pyGetattrD (apiGetattrD api d.endpoint) d.property = .arr xs ∧
          p.num < xs.length) ∧
    _port_entity_exists { key := "poe_power", endpoint := "poe", property := "power" }
      exampleApi8 { num := 9, name := "Port10" } = false := by
  constructor
  · simp only [setupPortEntities, List.mem_flatMap, List.mem_map, List.mem_filter]
    constructor
    · rintro ⟨e, ⟨a, ha, a1, ⟨hp, hchk⟩, rfl⟩, hdesc, hport⟩
      simp only at hdesc hport
      injection hport with hport
      subst hdesc
      subst hport
      exact ⟨ha, hp, (port_entity_exists_iff a api a1).1 hchk⟩
    · rintro ⟨hd, hp, hxs⟩
      exact ⟨_, ⟨d, hd, p, ⟨hp, (port_entity_exists_iff d api p).2 hxs⟩, rfl⟩, rfl, rfl⟩
  · rfl

/-- Witness for C4 -/
theorem port_entity_created_iff_witness :
    (∃ e ∈ setupPortEntities "SER" exampleApi,
      e.desc = { key := "poe_power", endpoint := "poe", property := "power" } ∧
      e.boundPort = Option.some { num := 3, name := "Port4" }) ∧
    ¬(∃ e ∈ setupPortEntities "SER" exampleApi8,
      e.desc = { key := "poe_power", endpoint := "poe", property := "power" } ∧
      e.boundPort = Option.some { num := 9, name := "Port10" }) := by
  constructor
  · exact ((port_entity_created_iff "SER" exampleApi
      { key := "poe_power", endpoint := "poe", property := "power" }
      { num := 3, name := "Port4" }).1).2
      ⟨by unfold PORT_SENSORS; exact List.mem_cons_self _ _,
       by unfold exampleApi; exact List.mem_cons_of_mem _ (List.mem_cons_self _ _),
       [.num 1, .num 2, .num 3, .num 4], rfl, by decide⟩
  · intro h
    have h2 := ((port_entity_created_iff "SER" exampleApi8
      { key := "poe_power", endpoint := "poe", property := "power" }
      { num := 9, name := "Port10" }).1).1 h
    obtain ⟨_, _, xs, hxs, hlen⟩ := h2
    have hxs2 : PyVal.arr [.num 0, .num 1, .num 2, .num 3, .num 4, .num 5,
        .num 6, .num 7] = PyVal.arr xs := hxs
    injection hxs2 with h3
    rw [← h3] at hlen
    exact absurd hlen (by decide)

/-- C5: for a registered port sensor bound to port index `p.num` and any
current snapshot on which its selector yields a sequence longer than
`p.num`, `native_value` returns exactly element `p.num` of that sequence. -/
theorem port_sensor_reads_indexed_element (d : MikrotikSwitchOSEntityDescription)
    (api : MikrotikSwitchOSData) (p : Port) (xs : List PyVal)
    (hsel : pyGetattrD (apiGetattrD api d.endpoint) d.property = .arr xs)
    (hlen : p.num < xs.length) :
    portNativeValue d api p = .ok (xs.get ⟨p.num, hlen⟩) :=
  portNativeValue_ok_of_sel d api p xs hsel hlen

/-- Witness for C5 -/
theorem port_sensor_reads_indexed_element_witness :
    portNativeValue { key := "poe_power", endpoint := "poe", property := "power" }
      exampleApi { num := 3, name := "Port4" } = .ok (PyVal.num 4) :=
  port_sensor_reads_indexed_element
    { key := "poe_power", endpoint := "poe", property := "power" }
    exampleApi { num := 3, name := "Port4" }
    [.num 1, .num 2, .num 3, .num 4] rfl (by decide)

/-- C6: selector evaluation is a pure, deterministic projection: evaluating
`native_value` or either existence predicate twice against the same
snapshot yields the same result, and evaluation returns the snapshot
unchanged. -/
theorem selector_evaluation_pure (api : MikrotikSwitchOSData)
    (d : MikrotikSwitchOSEntityDescription) (p : Port) :
    (nativeValueRun api d).2 = api ∧
    (nativeValueRun (nativeValueRun api d).2 d).1 = (nativeValueRun api d).1 ∧
    (portNativeValueRun api d p).2 = api ∧
    (portNativeValueRun (portNativeValueRun api d p).2 d p).1 =
      (portNativeValueRun api d p).1 ∧
    (globalExistsRun api d).2 = api ∧
    (globalExistsRun (globalExistsRun api d).2 d).1 = (globalExistsRun api d).1 ∧
    (portExistsRun api d p).2 = api ∧
    (portExistsRun (portExistsRun api d p).2 d p).1 = (portExistsRun api d p).1 :=
  ⟨rfl, rfl, rfl, rfl, rfl, rfl, rfl, rfl⟩

/-- C7: for every global sensor description, the `enabled_by_default`
predicate (present exactly on the PSU and total-power sensors) tests
presence of `poe`; the default-enabled status of a created entity is the
predicate evaluated once against the first snapshot, descriptors without a
predicate are always enabled by default, and a later coordinator refresh
leaves the created entities (hence their frozen status) unchanged. -/
theorem enabled_default_frozen_at_first_snapshot (serial : String)
    (first : MikrotikSwitchOSData) (d : MikrotikSwitchOSEntityDescription)
    (hd : d ∈ GLOBAL_SENSORS) (st : EntryState)
    (r : Except FetchError MikrotikSwitchOSData) :
    (d.enabled_by_default.isSome = true →
      entity_registry_enabled_default d first = !first.poe.isNone) ∧
    (d.enabled_by_default = Option.none →
      entity_registry_enabled_default d first = true) ∧
    (d.enabled_by_default.isSome = decide (d.key ≠ "cpu_temperature")) ∧
    (∀ e ∈ setupGlobalEntities serial first,
      e.defaultEnabled = entity_registry_enabled_default e.desc first) ∧
    (applyRefresh st r).sensorEntities = st.sensorEntities := by
  refine ⟨?_, ?_, ?_, setupGlobal_defaultEnabled serial first, ?_⟩
  · simp only [GLOBAL_SENSORS, List.mem_cons, List.not_mem_nil, or_false] at hd
    rcases hd with rfl | rfl | rfl | rfl | rfl | rfl | rfl | rfl <;>
      simp [entity_registry_enabled_default]
  · simp only [GLOBAL_SENSORS, List.mem_cons, List.not_mem_nil, or_false] at hd
    rcases hd with rfl | rfl | rfl | rfl | rfl | rfl | rfl | rfl <;>
      simp [entity_registry_enabled_default]
  · simp only [GLOBAL_SENSORS, List.mem_cons, List.not_mem_nil, or_false] at hd
    rcases hd with rfl | rfl | rfl | rfl | rfl | rfl | rfl | rfl <;> simp
  · cases r <;> rfl

/-- Witness for C7 -/
theorem enabled_default_frozen_witness :
    entity_registry_enabled_default
      { key := "psu1_current", endpoint := "sys", property := "psu1_current",
        enabled_by_default := Option.some (fun api => !api.poe.isNone) }
      apiNoPoe = false := by
  have h := (enabled_default_frozen_at_first_snapshot "SER" apiNoPoe
      { key := "psu1_current", endpoint := "sys", property := "psu1_current",
        enabled_by_default := Option.some (fun api => !api.poe.isNone) }
      (by unfold GLOBAL_SENSORS
          exact List.mem_cons_of_mem _ (List.mem_cons_self _ _))
      { runtime_data := Option.none, sensorEntities := [] }
      (.error .connectError)).1 rfl
  simpa [apiNoPoe, PyVal.isNone] using h

/-- C9: a port sensor read is total exactly under the length precondition:
if the registration-time check passed on a snapshot then `native_value` on
that snapshot succeeds, but on a later snapshot whose selected array has
length at most the bound index the read raises `IndexError` rather than
returning an absent value. -/
theorem port_native_value_totality (d : MikrotikSwitchOSEntityDescription)
    (api later : MikrotikSwitchOSData) (p : Port) (xs : List PyVal) :
    (_port_entity_exists d api p = true → ∃ v, portNativeValue d api p = .ok v) ∧
    (pyGetattrD (apiGetattrD later d.endpoint) d.property = .arr xs →
      xs.length ≤ p.num → portNativeValue d later p = .error .indexError) := by
  constructor
  · intro hchk
    obtain ⟨ys, hsel, hlen⟩ := (port_entity_exists_iff d api p).1 hchk
    exact ⟨_, portNativeValue_ok_of_sel d api p ys hsel hlen⟩
  · intro hsel hlen
    have hnn : (pyGetattrD (apiGetattrD later d.endpoint) d.property).isNone = false := by
      rw [hsel]; rfl
    have h1 := apiGetattr_of_not_none later d.endpoint d.property hnn
    have h2 := pyGetattr_of_not_none (apiGetattrD later d.endpoint) d.property hnn
    unfold portNativeValue nativeValue
    rw [h1]
    simp only [bind, Except.bind]
    rw [h2, hsel]
    simp [pySubscript, List.getElem?_eq_none hlen]

/-- Witness for C9 -/
theorem port_native_value_totality_witness :
    (∃ v, portNativeValue { key := "poe_power", endpoint := "poe", property := "power" }
      exampleApi { num := 3, name := "Port4" } = .ok v) ∧
    portNativeValue { key := "poe_power", endpoint := "poe", property := "power" }
      exampleApi8 { num := 9, name := "Port10" } = .error .indexError :=
  ⟨(port_native_value_totality
      { key := "poe_power", endpoint := "poe", property := "power" }
      exampleApi exampleApi { num := 3, name := "Port4" } []).1 rfl,
   (port_native_value_totality
      { key := "poe_power", endpoint := "poe", property := "power" }
      exampleApi8 exampleApi8 { num := 9, name := "Port10" }
      [.num 0, .num 1, .num 2, .num 3, .num 4, .num 5, .num 6, .num 7]).2
      rfl (by decide)⟩

/-- C10: unique ids of entities created in one run are pairwise distinct:
two global sensors with distinct keys, two port sensors differing in port
number or key, and any global/port sensor pair drawn from the descriptor
tables, always receive distinct unique ids. -/
theorem unique_ids_pairwise_distinct (serial : String)
    (d1 d2 : MikrotikSwitchOSEntityDescription) (p1 p2 : Port) :
    (d1.key ≠ d2.key → globalUniqueId serial d1 ≠ globalUniqueId serial d2) ∧
    ((p1.num ≠ p2.num ∨ d1.key ≠ d2.key) →
      portUniqueId serial d1 p1 ≠ portUniqueId serial d2 p2) ∧
    (d1 ∈ GLOBAL_SENSORS → d2 ∈ PORT_SENSORS →
      globalUniqueId serial d1 ≠ portUniqueId serial d2 p2) := by
  refine ⟨?_, ?_, ?_⟩
  · intro hk heq
    unfold globalUniqueId at heq
    have h1 := List.append_cancel_left heq
    injection h1 with _ h2
    exact hk (string_data_inj _ _ h2)
  · intro hor heq
    unfold portUniqueId at heq
    have h1 := List.append_cancel_left heq
    injection h1 with _ h2
    have h3 := append_underscore_inj _ _ _ _
      (underscore_not_mem_natRepr p1.num) (underscore_not_mem_natRepr p2.num) h2
    rcases hor with hn | hk
    · exact hn (natRepr_inj _ _ h3.1)
    · exact hk (string_data_inj _ _ h3.2)
  · intro h1 h2 heq
    unfold globalUniqueId portUniqueId at heq
    have hc := List.append_cancel_left heq
    injection hc with _ h3
    obtain ⟨c, cs, hcc⟩ := List.exists_cons_of_ne_nil (natRepr_ne_nil p2.num)
    have hcdig : c.isDigit = true :=
      natRepr_all_digits p2.num c (hcc ▸ List.mem_cons_self c cs)
    rw [hcc] at h3
    have hhead : headIsDigit d1.key.data = true := by
      rw [h3]
      simp [headIsDigit, List.cons_append, hcdig]
    rw [global_keys_not_digit d1 h1] at hhead
    exact Bool.false_ne_true hhead

/-- Witness for C10 -/
theorem unique_ids_pairwise_distinct_witness :
    globalUniqueId "ABC123"
        { key := "cpu_temperature", endpoint := "sys", property := "cpu_temp" } ≠
      globalUniqueId "ABC123"
        { key := "total_power", endpoint := "sys", property := "power_consumption",
          enabled_by_default := Option.some (fun api => !api.poe.isNone) } ∧
    portUniqueId "ABC123"
        { key := "poe_power", endpoint := "poe", property := "power" }
        { num := 0, name := "Port1" } ≠
      portUniqueId "ABC123"
        { key := "poe_power", endpoint := "poe", property := "power" }
        { num := 1, name := "Port2" } ∧
    globalUniqueId "ABC123"
        { key := "cpu_temperature", endpoint := "sys", property := "cpu_temp" } ≠
      portUniqueId "ABC123"
        { key := "poe_power", endpoint := "poe", property := "power" }
        { num := 0, name := "Port1" } :=
  ⟨(unique_ids_pairwise_distinct "ABC123"
      { key := "cpu_temperature", endpoint := "sys", property := "cpu_temp" }
      { key := "total_power", endpoint := "sys", property := "power_consumption",
        enabled_by_default := Option.some (fun api => !api.poe.isNone) }
      { num := 0, name := "Port1" } { num := 1, name := "Port2" }).1 (by decide),
   (unique_ids_pairwise_distinct "ABC123"
      { key := "poe_power", endpoint := "poe", property := "power" }
      { key := "poe_power", endpoint := "poe", property := "power" }
      { num := 0, name := "Port1" } { num := 1, name := "Port2" }).2.1
      (Or.inl (by decide)),
   (unique_ids_pairwise_distinct "ABC123"
      { key := "cpu_temperature", endpoint := "sys", property := "cpu_temp" }
      { key := "poe_power", endpoint := "poe", property := "power" }
      { num := 0, name := "Port1" } { num := 0, name := "Port1" }).2.2
      (by unfold GLOBAL_SENSORS; exact List.mem_cons_self _ _)
      (by unfold PORT_SENSORS; exact List.mem_cons_self _ _)⟩
